import Mathlib

/-!
Verification of the host-side core of gen2-deeplabv3_depth/main.py:
the HostSync stream synchronizer, the main polling loop, the geometric
normalizer (crop_to_square / resize), the segmentation decoders
(decode_deeplabv3p / get_multiplier), the cutout composition with the
custom jet colormap, and the FPSHandler frame-rate tracker.

Timestamps are modelled as integers counting microseconds (Python
datetime / timedelta have microsecond resolution).
-/

set_option autoImplicit false

/-- A timestamped message. `ts` is the capture timestamp in microseconds;
`uid` distinguishes message objects (Python object identity). -/
structure Msg where
  ts : Int
  uid : Nat
deriving DecidableEq, Repr

/-- Mirrors Python `timedelta(milliseconds=n)` expressed in microseconds. -/
def timedeltaMs (n : Int) : Int := 1000 * n

/-- State of `HostSync`: the `self.arrays` dict, modelled as an association
list from stream name to message buffer, in key-insertion order (Python
dicts preserve insertion order). -/
structure HostSync where
  arrays : List (String × List Msg)
deriving DecidableEq, Repr

/-- Mirrors `self.arrays[name] = []` / `self.arrays[name].append({'msg': msg})`:
append `msg` to the buffer of `name`, creating the buffer (at the end of the
dict, as Python does for a new key) when absent. -/
def appendMsg : List (String × List Msg) → String → Msg → List (String × List Msg)
  | [], name, msg => [(name, [msg])]
  | (n, arr) :: rest, name, msg =>
    if n = name then (n, arr ++ [msg]) :: rest
    else (n, arr) :: appendMsg rest name msg

/-- Mirrors the inner loop of `add_msg`: scan a buffer from oldest to newest
and return the first entry whose absolute timestamp difference from `ts` is
strictly below 33 ms (the `break` on the first match). -/
def findFirstMatch (ts : Int) : List Msg → Option Msg
  | [] => none
  | m :: rest =>
    if |m.ts - ts| < timedeltaMs 33 then some m else findFirstMatch ts rest

/-- Mirrors the construction of the `synced` dict: one entry per stream
whose buffer holds a message within the 33 ms tolerance of `ts`. -/
def findSynced (ts : Int) (arrays : List (String × List Msg)) :
    List (String × Msg) :=
  arrays.filterMap fun p => (findFirstMatch ts p.2).map fun m => (p.1, m)

/-- Mirrors `remove(t1, t2)`: `timedelta(milliseconds=500) < abs(t1 - t2)`. -/
def removeCond (t1 t2 : Int) : Prop := timedeltaMs 500 < |t1 - t2|

instance (t1 t2 : Int) : Decidable (removeCond t1 t2) := by
  unfold removeCond; infer_instance

/-- Mirrors `for i, obj in enumerate(arr): if remove(...): arr.remove(obj)
else: break`, including the CPython semantics of removing from the list
being iterated: after `arr.remove(obj)` at index `i`, iteration resumes at
index `i+1` of the shortened list, so the element that shifted into slot
`i` is skipped. `fuel` makes the recursion structural; an initial fuel of
`arr.length` is enough, because each step either returns or raises `i` by
one while shortening `arr` by one, so the index check `i < arr.length` can
fail at the latest when the fuel does. -/
def pruneIter (ts : Int) : Nat → Nat → List Msg → List Msg
  | 0, _, arr => arr
  | fuel + 1, i, arr =>
    if h : i < arr.length then
      let obj := arr.get ⟨i, h⟩
      if removeCond obj.ts ts then pruneIter ts fuel (i + 1) (arr.erase obj)
      else arr
    else arr

/-- The per-buffer stale-pruning pass of `add_msg`. -/
def pruneBuf (ts : Int) (arr : List Msg) : List Msg :=
  pruneIter ts arr.length 0 arr

/-- Mirrors `for name, arr in self.arrays.items():` of the pruning phase:
prune every buffer (keys stay in place, possibly with empty buffers). -/
def pruneAll (ts : Int) (arrays : List (String × List Msg)) :
    List (String × List Msg) :=
  arrays.map fun p => (p.1, pruneBuf ts p.2)

/-- Mirrors `HostSync.add_msg`: append the message, look for one candidate
per stream within 33 ms of the timestamp of the new message, and when all
3 streams have a candidate, prune stale entries and return the synced
mapping; otherwise return no match (`False`). -/
def HostSync.add_msg (s : HostSync) (name : String) (msg : Msg) :
    HostSync × Option (List (String × Msg)) :=
  let arrays1 := appendMsg s.arrays name msg
  let ts := msg.ts
  let synced := findSynced ts arrays1
  if synced.length = 3 then
    (⟨pruneAll ts arrays1⟩, some synced)
  else
    (⟨arrays1⟩, none)

/-- The buffer a `HostSync` state holds for stream `n` (empty when the
stream name is absent, as a convenient total view of the dict). -/
def bufOf (s : HostSync) (n : String) : List Msg :=
  (s.arrays.lookup n).getD []

/-! Frames. An image is modelled as a grid of pixels given by dimensions
and a total pixel function (reads outside the bounds are irrelevant to
every property below). -/

/-- A pixel of a 3-channel image, in OpenCV channel order (B, G, R). -/
abbrev RGB := Nat × Nat × Nat

/-- A 2-dimensional image with pixel type `α`: `rows` is `shape[0]`
(height), `cols` is `shape[1]` (width), `pix r c` reads row `r`, column
`c`. -/
structure Frame (α : Type) where
  rows : Nat
  cols : Nat
  pix : Nat → Nat → α

/-- Mirrors `crop_to_square`: `delta = int((width - height) / 2)` (Python
`int` truncates toward zero, which is `Int.tdiv` here) and the slice
`frame[0:height, delta:width-delta]`, which for `0 ≤ delta ≤ width` keeps
all rows and the columns `delta, ..., width-delta-1`. -/
def crop_to_square {α : Type} (f : Frame α) : Frame α :=
  let height : Int := f.rows
  let width : Int := f.cols
  let delta : Int := (width - height).tdiv 2
  { rows := f.rows
    cols := (width - delta - delta).toNat
    pix := fun r c => f.pix r (c + delta.toNat) }

/-- Models the external `cv2.resize(frame, dsize)` through its interface
(spec section 4.4): the output has exactly the requested size, `dsize`
being `(width, height)`, with nearest-neighbour sampling standing in for
the interpolation (no claim below depends on interpolated pixel values). -/
def resize {α : Type} (f : Frame α) (dsize : Nat × Nat) : Frame α :=
  { rows := dsize.2
    cols := dsize.1
    pix := fun r c => f.pix (r * f.rows / dsize.2) (c * f.cols / dsize.1) }

/-! Segmentation decoders. The flat output tensor is a list of class
indices; `reshape(nn_shape, nn_shape)` maps position `(i, j)` to flat
index `i * nn_shape + j`, and `np.take(table, output, axis=0)` is a
per-pixel table lookup. -/

/-- The `class_colors` table of `decode_deeplabv3p`: class 0 is black,
class 1 is green. -/
def class_colors : List RGB := [(0, 0, 0), (0, 255, 0)]

/-- Mirrors `decode_deeplabv3p`. -/
def decode_deeplabv3p (nn_shape : Nat) (output_tensor : List Nat) : Frame RGB :=
  { rows := nn_shape
    cols := nn_shape
    pix := fun i j =>
      class_colors.getD (output_tensor.getD (i * nn_shape + j) 0) (0, 0, 0) }

/-- The `class_binary` table of `get_multiplier`. -/
def class_binary : List (List Nat) := [[0], [1]]

/-- Mirrors `get_multiplier`. The selected `class_binary` row is a
singleton; its trailing length-1 axis broadcasts away when the mask is
multiplied with the disparity frame, so the pixel is the single entry. -/
def get_multiplier (nn_shape : Nat) (output_tensor : List Nat) : Frame Nat :=
  { rows := nn_shape
    cols := nn_shape
    pix := fun i j =>
      (class_binary.getD (output_tensor.getD (i * nn_shape + j) 0) []).headD 0 }

/-- Mirrors `jet_custom = cv2.applyColorMap(np.arange(256), COLORMAP_JET)`
followed by `jet_custom[0] = [0, 0, 0]`: `base` stands for the JET palette
table produced by the external library, and the program then forces the
entry at index 0 to black. -/
def jet_custom (base : List RGB) : List RGB := base.set 0 (0, 0, 0)

/-- Models the external `cv2.applyColorMap` through its interface: a
per-pixel palette lookup. -/
def applyColorMap (f : Frame Nat) (cmap : List RGB) : Frame RGB :=
  { rows := f.rows
    cols := f.cols
    pix := fun r c => cmap.getD (f.pix r c) (0, 0, 0) }

/-- Elementwise product `disp_frame * multiplier` of two uint8 images
(numpy uint8 arithmetic wraps modulo 256). -/
def frameMul (a b : Frame Nat) : Frame Nat :=
  { rows := a.rows
    cols := a.cols
    pix := fun r c => a.pix r c * b.pix r c % 256 }

/-! The FPSHandler frame-rate tracker. Wall-clock samples are rationals;
`__init__` takes its two `time.time()` samples separately (`timestamp`
is sampled first, then `start`). -/

structure FPSHandler where
  timestamp : ℚ
  start : ℚ
  frame_cnt : Nat
deriving DecidableEq, Repr

/-- Mirrors `FPSHandler.__init__` with the two time samples `t1` (for
`timestamp`) and `t2` (for `start`). -/
def FPSHandler.init (t1 t2 : ℚ) : FPSHandler := ⟨t1, t2, 0⟩

/-- Mirrors `next_iter`: record the current time `t` and count one frame. -/
def FPSHandler.next_iter (s : FPSHandler) (t : ℚ) : FPSHandler :=
  ⟨t, s.start, s.frame_cnt + 1⟩

/-- Mirrors `fps`: `frame_cnt / (timestamp - start)`. Python float
division raises ZeroDivisionError when the elapsed time is exactly zero;
that outcome is modelled as `none`. -/
def FPSHandler.fps (s : FPSHandler) : Option ℚ :=
  if s.timestamp - s.start = 0 then none
  else some (s.frame_cnt / (s.timestamp - s.start))

/-! The ingestion phase of the `while True` polling loop. A device queue
is modelled as the list of messages it currently holds, oldest first:
`q.has()` is the list being nonempty and `q.get()` pops the head. -/

/-- Result of one guarded ingestion statement. -/
structure PollResult where
  sync : HostSync
  msgs : Option (List (String × Msg))
  queue : List Msg
deriving DecidableEq, Repr

/-- Mirrors one `if q.has(): msgs = msgs or sync.add_msg(name, q.get())`
statement. Python `or` short-circuits: when `msgs` already holds a synced
triple, the right operand is not evaluated, so neither the `q.get()` pop
nor the `add_msg` call happens and the queue is left untouched. -/
def pollOne (s : HostSync) (msgs : Option (List (String × Msg)))
    (name : String) (q : List Msg) : PollResult :=
  match q with
  | [] => ⟨s, msgs, []⟩
  | m :: rest =>
    match msgs with
    | some t => ⟨s, some t, m :: rest⟩
    | none =>
      let r := s.add_msg name m
      ⟨r.1, r.2, rest⟩

/-- State of one loop iteration after the ingestion phase. -/
structure LoopResult where
  sync : HostSync
  msgs : Option (List (String × Msg))
  qColor : List Msg
  qDisp : List Msg
  qNn : List Msg
deriving DecidableEq, Repr

/-- Mirrors the ingestion phase of one iteration of the main loop:
`msgs = False`, then the three guarded `msgs = msgs or add_msg(...)`
statements for the color, disparity and nn queues, ingested under the
stream names "color", "depth", "nn" in that order. -/
def loopIter (s : HostSync) (qc qd qn : List Msg) : LoopResult :=
  let r1 := pollOne s none "color" qc
  let r2 := pollOne r1.sync r1.msgs "depth" qd
  let r3 := pollOne r2.sync r2.msgs "nn" qn
  ⟨r3.sync, r3.msgs, r1.queue, r2.queue, r3.queue⟩

/-! Concrete scenarios used to settle the claims on explicit inputs. -/

/-- color at 0 ms. -/
def cMsg1 : Msg := ⟨timedeltaMs 0, 1⟩

/-- color at 5 ms. -/
def cMsg2 : Msg := ⟨timedeltaMs 5, 2⟩

/-- depth at 1000 ms. -/
def dMsg1 : Msg := ⟨timedeltaMs 1000, 3⟩

/-- nn at 1001 ms. -/
def nMsg1 : Msg := ⟨timedeltaMs 1001, 4⟩

/-- color at 999 ms. -/
def cMsg3 : Msg := ⟨timedeltaMs 999, 5⟩

/-- Insert color@0ms, color@5ms, depth@1000ms, nn@1001ms, then
color@999ms; the last call synchronizes at reference timestamp 999 ms
with the color buffer holding two entries more than 500 ms stale. -/
def staleScenario : HostSync × Option (List (String × Msg)) :=
  (((((HostSync.mk []).add_msg "color" cMsg1).1.add_msg
      "color" cMsg2).1.add_msg "depth" dMsg1).1.add_msg
      "nn" nMsg1).1.add_msg "color" cMsg3

/-- depth at 0 ms. -/
def dMsg0 : Msg := ⟨timedeltaMs 0, 10⟩

/-- nn at 1 ms. -/
def nMsg0 : Msg := ⟨timedeltaMs 1, 11⟩

/-- color at 2 ms. -/
def cMsg0 : Msg := ⟨timedeltaMs 2, 12⟩

/-- depth at 40 ms. -/
def dMsgLate : Msg := ⟨timedeltaMs 40, 13⟩

/-- A loop iteration in which the color queue holds a message completing
a triple with already-buffered depth and nn messages, while the disparity
queue also reports data (`dMsgLate`). -/
def skipScenario : LoopResult :=
  loopIter (((HostSync.mk []).add_msg "depth" dMsg0).1.add_msg "nn" nMsg0).1
    [cMsg0] [dMsgLate] []

/-- color at 0 ms. -/
def colorA : Msg := ⟨timedeltaMs 0, 21⟩

/-- depth at 1 ms. -/
def depthA : Msg := ⟨timedeltaMs 1, 22⟩

/-- nn at 2 ms. -/
def nnA : Msg := ⟨timedeltaMs 2, 23⟩

/-- Insert three mutually close messages; the third call synchronizes. -/
def tripleScenario : HostSync × Option (List (String × Msg)) :=
  (((HostSync.mk []).add_msg "color" colorA).1.add_msg
      "depth" depthA).1.add_msg "nn" nnA

/-- A 4-row, 5-column frame (height 4, width 5: odd width minus height). -/
def frame45 : Frame Nat := ⟨4, 5, fun _ _ => 0⟩

/-! Helper lemmas about the synchronizer. -/

theorem findFirstMatch_sound {ts : Int} {arr : List Msg} {m : Msg}
    (h : findFirstMatch ts arr = some m) :
    m ∈ arr ∧ |m.ts - ts| < timedeltaMs 33 := by
  induction arr with
  | nil => simp [findFirstMatch] at h
  | cons a rest ih =>
    by_cases ha : |a.ts - ts| < timedeltaMs 33
    · simp [findFirstMatch, ha] at h
      subst h
      exact ⟨List.mem_cons_self a rest, ha⟩
    · simp [findFirstMatch, ha] at h
      rcases ih h with ⟨h1, h2⟩
      exact ⟨List.mem_cons_of_mem a h1, h2⟩

theorem findSynced_sound {ts : Int} {arrays : List (String × List Msg)}
    {p : String × Msg} (h : p ∈ findSynced ts arrays) :
    ∃ arr, (p.1, arr) ∈ arrays ∧ p.2 ∈ arr ∧ |p.2.ts - ts| < timedeltaMs 33 := by
  unfold findSynced at h
  rcases List.mem_filterMap.mp h with ⟨q, hq, hmap⟩
  rcases Option.map_eq_some'.mp hmap with ⟨m, hfind, heq⟩
  rcases findFirstMatch_sound hfind with ⟨hmem, hts⟩
  refine ⟨q.2, ?_, ?_, ?_⟩
  · have : p.1 = q.1 := by rw [← heq]
    rw [this]
    exact hq
  · have : p.2 = m := by rw [← heq]
    rw [this]
    exact hmem
  · have : p.2 = m := by rw [← heq]
    rw [this]
    exact hts

theorem pruneIter_keeps_fresh {ts : Int} {m : Msg}
    (hm : ¬ removeCond m.ts ts) :
    ∀ (fuel i : Nat) (arr : List Msg), m ∈ arr → m ∈ pruneIter ts fuel i arr := by
  intro fuel
  induction fuel with
  | zero => intro i arr hmem; simpa [pruneIter] using hmem
  | succ n ih =>
    intro i arr hmem
    unfold pruneIter
    by_cases h : i < arr.length
    · simp only [h, dif_pos]
      set obj := arr.get ⟨i, h⟩ with hobj
      by_cases hrem : removeCond obj.ts ts
      · simp only [hrem, if_pos]
        apply ih
        have hne : m ≠ obj := by
          intro hcontra
          rw [hcontra] at hm
          exact hm hrem
        exact (List.mem_erase_of_ne hne).mpr hmem
      · simpa [hrem] using hmem
    · simpa [h] using hmem

theorem pruneBuf_keeps_fresh {ts : Int} {m : Msg} {arr : List Msg}
    (hm : ¬ removeCond m.ts ts) (hmem : m ∈ arr) : m ∈ pruneBuf ts arr :=
  pruneIter_keeps_fresh hm arr.length 0 arr hmem

theorem lookup_pruneAll (ts : Int) (arrays : List (String × List Msg))
    (n : String) :
    (pruneAll ts arrays).lookup n = (arrays.lookup n).map (pruneBuf ts) := by
  induction arrays with
  | nil => simp [pruneAll]
  | cons p rest ih =>
    by_cases h : n = p.1
    · simp [pruneAll, List.lookup, h]
    · have h' : (n == p.1) = false := by simp [beq_iff_eq, h]
      simpa [pruneAll, List.lookup, h'] using ih

theorem lookup_appendMsg_self (arrays : List (String × List Msg))
    (name : String) (msg : Msg) :
    (appendMsg arrays name msg).lookup name =
      some ((arrays.lookup name).getD [] ++ [msg]) := by
  induction arrays with
  | nil => simp [appendMsg, List.lookup]
  | cons p rest ih =>
    rcases p with ⟨n, arr⟩
    by_cases h : n = name
    · simp [appendMsg, h, List.lookup]
    · have h' : (name == n) = false := by
        simp [beq_iff_eq]
        intro hc
        exact h hc.symm
      simp [appendMsg, h, List.lookup, h', ih]

theorem lookup_appendMsg_other (arrays : List (String × List Msg))
    (name n : String) (msg : Msg) (hne : n ≠ name) :
    (appendMsg arrays name msg).lookup n = arrays.lookup n := by
  induction arrays with
  | nil =>
    have h' : (n == name) = false := by simp [beq_iff_eq, hne]
    simp [appendMsg, List.lookup, h']
  | cons p rest ih =>
    rcases p with ⟨k, arr⟩
    by_cases h : k = name
    · subst h
      have h' : (n == k) = false := by simp [beq_iff_eq, hne]
      simp [appendMsg, List.lookup, h']
    · by_cases hkn : n = k
      · subst hkn
        simp [appendMsg, h, List.lookup]
      · have h' : (n == k) = false := by simp [beq_iff_eq, hkn]
        simp [appendMsg, h, List.lookup, h', ih]

/-! Additional helper lemmas. -/

theorem td33_pos : (0 : Int) < timedeltaMs 33 := by norm_num [timedeltaMs]

theorem not_removeCond_of_tol {a b : Int} (h : |a - b| < timedeltaMs 33) :
    ¬ removeCond a b := by
  intro hcon
  unfold removeCond at hcon
  unfold timedeltaMs at h hcon
  linarith

theorem foldl_next_iter_cnt (s : FPSHandler) (ts : List ℚ) :
    (ts.foldl FPSHandler.next_iter s).frame_cnt = s.frame_cnt + ts.length := by
  induction ts generalizing s with
  | nil => simp
  | cons t rest ih =>
    simp [List.foldl, ih, FPSHandler.next_iter]
    omega

theorem getD_of_all_eq_zero {t : List Nat} (h : ∀ v ∈ t, v = 0) (k : Nat) :
    t[k]?.getD 0 = 0 := by
  rcases hk : t[k]? with _ | v
  · simp
  · simp [h v (List.getElem?_mem hk)]

theorem getD_of_all_eq_one {t : List Nat} (h : ∀ v ∈ t, v = 1) (k : Nat)
    (hk : k < t.length) : t[k]?.getD 0 = 1 := by
  rcases hg : t[k]? with _ | v
  · simp [List.getElem?_eq_none_iff] at hg
    omega
  · simp [h v (List.getElem?_mem hg)]

theorem flat_index_lt {i j s : Nat} (hi : i < s) (hj : j < s) :
    i * s + j < s * s := by
  calc i * s + j < i * s + s := by omega
    _ = (i + 1) * s := by ring
    _ ≤ s * s := Nat.mul_le_mul_right s hi

/-! Claim C2 (code bug). The comment above the pruning phase says
"remove all old msgs", and the pruning loop is meant to drop the stale
prefix of each buffer; removing from the list while `enumerate` iterates
it makes the scan skip the entry that shifts into the freed slot, so the
second of two consecutive stale entries survives. -/

/-- C2: at the failing input (color entries at 0 ms and 5 ms buffered when
a synchronization succeeds at reference timestamp 999 ms), the sync
returns a triple, yet the color buffer still holds the entry at 5 ms,
which is 994 ms away from the reference timestamp: the pruning step does
not remove every stale entry of the contiguous stale prefix. -/
theorem add_msg_prune_skips_stale :
    staleScenario.2 =
      some [("color", cMsg3), ("depth", dMsg1), ("nn", nMsg1)] ∧
    bufOf staleScenario.1 "color" = [cMsg2, cMsg3] ∧
    removeCond cMsg2.ts cMsg3.ts := by
  refine ⟨by decide, by decide, by decide⟩

/-- C4 counterexample: in `skipScenario`, the disparity queue reports data
(`dMsgLate`), but because the color ingestion already produced a synced
triple this iteration, `msgs or sync.add_msg(...)` short-circuits: the
disparity message is neither popped nor ingested during that iteration,
contradicting the claim. -/
theorem loop_skips_ingestion_after_triple :
    skipScenario.msgs =
      some [("depth", dMsg0), ("nn", nMsg0), ("color", cMsg0)] ∧
    skipScenario.qDisp = [dMsgLate] ∧
    bufOf skipScenario.sync "depth" = [dMsg0] := by
  refine ⟨by decide, by decide, by decide⟩

/-- C9 counterexample: the third `add_msg` of `tripleScenario` returns a
synced triple, yet all three selected messages are still held in the
stream buffers after the call — they are not consumed out of the
synchronizer. -/
theorem synced_msgs_not_consumed :
    tripleScenario.2 =
      some [("color", colorA), ("depth", depthA), ("nn", nnA)] ∧
    colorA ∈ bufOf tripleScenario.1 "color" ∧
    depthA ∈ bufOf tripleScenario.1 "depth" ∧
    nnA ∈ bufOf tripleScenario.1 "nn" := by
  refine ⟨by decide, by decide, by decide, by decide⟩

/-- C5 counterexample: a 4-by-5 frame (width 5 ≥ height 4, difference
odd) is mapped by `crop_to_square` to a frame whose width still differs
from its height, because `delta = int(1 / 2) = 0` removes nothing. -/
theorem crop_odd_not_square :
    frame45.rows ≤ frame45.cols ∧
    (crop_to_square frame45).cols ≠ (crop_to_square frame45).rows := by
  refine ⟨by decide, by decide⟩

/-- C5 amended: for a frame with width at least height and an even
difference, `crop_to_square` keeps the height and reduces the width to
the height, removing `(width - height) / 2` columns from each side; on an
already-square frame it is the identity; and the 1080-by-1920 frame
resized after cropping is exactly 400-by-400. -/
theorem crop_to_square_even_spec :
    (∀ (f : Frame Nat), f.rows ≤ f.cols → (f.cols - f.rows) % 2 = 0 →
      (crop_to_square f).rows = f.rows ∧
      (crop_to_square f).cols = f.rows ∧
      ∀ r c, (crop_to_square f).pix r c = f.pix r (c + (f.cols - f.rows) / 2)) ∧
    (∀ (f : Frame Nat), f.cols = f.rows → crop_to_square f = f) ∧
    (∀ (f : Frame Nat), f.rows = 1080 → f.cols = 1920 →
      (resize (crop_to_square f) (400, 400)).rows = 400 ∧
      (resize (crop_to_square f) (400, 400)).cols = 400) := by
  refine ⟨?_, ?_, ?_⟩
  · intro f hle hev
    have hd : ((f.cols : Int) - f.rows).tdiv 2 = ((f.cols - f.rows) / 2 : Nat) := by
      have h1 : ((f.cols : Int) - f.rows) = ((f.cols - f.rows : Nat) : Int) := by
        omega
      rw [h1, Int.tdiv_eq_ediv (by positivity) (by norm_num)]
      omega
    refine ⟨rfl, ?_, ?_⟩
    · show (((f.cols : Int)) - _ - _).toNat = f.rows
      rw [hd]
      omega
    · intro r c
      show f.pix r (c + (((f.cols : Int) - f.rows).tdiv 2).toNat) = _
      rw [hd]
      exact congrArg (f.pix r) (by omega)
  · intro f h
    cases f with
    | mk rows cols pix =>
      simp only at h
      subst h
      simp [crop_to_square]
  · intro f h1 h2
    exact ⟨rfl, rfl⟩

/-- Witness for `crop_to_square_even_spec` at concrete frames. -/
theorem crop_to_square_even_spec_witness :
    (crop_to_square (Frame.mk 2 4 fun _ _ => (5 : Nat))).cols = 2 ∧
    crop_to_square (Frame.mk 3 3 fun _ _ => (0 : Nat)) =
      Frame.mk 3 3 (fun _ _ => (0 : Nat)) ∧
    (resize (crop_to_square (Frame.mk 1080 1920 fun _ _ => (0 : Nat)))
      (400, 400)).rows = 400 :=
  ⟨(crop_to_square_even_spec.1 ⟨2, 4, fun _ _ => 5⟩ (by norm_num)
      (by norm_num)).2.1,
   crop_to_square_even_spec.2.1 ⟨3, 3, fun _ _ => 0⟩ rfl,
   (crop_to_square_even_spec.2.2 ⟨1080, 1920, fun _ _ => 0⟩ rfl rfl).1⟩

/-- C8 counterexample: at a freshly constructed tracker whose two
`time.time()` samples coincide, `frame_cnt` is 0 and the query divides by
zero (Python raises ZeroDivisionError, modelled as `none`), contradicting
the claim that the query avoids dividing by zero at `timestamp == start`. -/
theorem fps_zero_elapsed_division :
    (FPSHandler.init 0 0).frame_cnt = 0 ∧ (FPSHandler.init 0 0).fps = none := by
  refine ⟨rfl, by simp [FPSHandler.fps, FPSHandler.init]⟩

/-- C8 amended: after N `next_iter` calls the count is N; when the last
timestamp is strictly later than `start`, `fps` returns a non-negative
(finite, rational) value; when the elapsed time is exactly zero, the
division fails. -/
theorem fps_tracker_behaviour :
    (∀ (t1 t2 : ℚ) (ts : List ℚ),
      (ts.foldl FPSHandler.next_iter (FPSHandler.init t1 t2)).frame_cnt =
        ts.length) ∧
    (∀ s : FPSHandler, s.start < s.timestamp →
      s.fps = some ((s.frame_cnt : ℚ) / (s.timestamp - s.start)) ∧
      0 ≤ (s.frame_cnt : ℚ) / (s.timestamp - s.start)) ∧
    (∀ s : FPSHandler, s.timestamp = s.start → s.fps = none) := by
  refine ⟨?_, ?_, ?_⟩
  · intro t1 t2 ts
    simp [foldl_next_iter_cnt, FPSHandler.init]
  · intro s h
    have hne : s.timestamp - s.start ≠ 0 := by
      intro hc
      have : s.timestamp = s.start := by linarith
      exact absurd h (by simp [this])
    refine ⟨?_, ?_⟩
    · simp [FPSHandler.fps, hne]
    · exact div_nonneg (Nat.cast_nonneg _) (by linarith)
  · intro s h
    simp [FPSHandler.fps, h]

/-- Witness for `fps_tracker_behaviour` at concrete states. -/
theorem fps_tracker_behaviour_witness :
    ([(1 : ℚ), 2].foldl FPSHandler.next_iter (FPSHandler.init 0 0)).frame_cnt
        = 2 ∧
    FPSHandler.fps ⟨2, 0, 3⟩ = some (((3 : Nat) : ℚ) / ((2 : ℚ) - 0)) ∧
    FPSHandler.fps ⟨1, 1, 0⟩ = none :=
  ⟨fps_tracker_behaviour.1 0 0 [1, 2],
   (fps_tracker_behaviour.2.1 ⟨2, 0, 3⟩ (by norm_num)).1,
   fps_tracker_behaviour.2.2 ⟨1, 1, 0⟩ rfl⟩

/-- C6: a uniform all-zero tensor decodes to an all-black image and an
all-zero mask; a uniform all-one tensor of the full `nn_shape * nn_shape`
length decodes to an all-green image and an all-one mask; both outputs
have the spatial shape of the tensor. -/
theorem decoder_uniform_tensors (nn_shape : Nat) (t : List Nat) :
    ((∀ v ∈ t, v = 0) →
      (∀ i j, (decode_deeplabv3p nn_shape t).pix i j = (0, 0, 0)) ∧
      (∀ i j, (get_multiplier nn_shape t).pix i j = 0)) ∧
    ((∀ v ∈ t, v = 1) → t.length = nn_shape * nn_shape →
      (∀ i j, i < nn_shape → j < nn_shape →
        (decode_deeplabv3p nn_shape t).pix i j = (0, 255, 0)) ∧
      (∀ i j, i < nn_shape → j < nn_shape →
        (get_multiplier nn_shape t).pix i j = 1)) ∧
    (decode_deeplabv3p nn_shape t).rows = nn_shape ∧
    (decode_deeplabv3p nn_shape t).cols = nn_shape ∧
    (get_multiplier nn_shape t).rows = nn_shape ∧
    (get_multiplier nn_shape t).cols = nn_shape := by
  refine ⟨?_, ?_, rfl, rfl, rfl, rfl⟩
  · intro h0
    constructor
    · intro i j
      simp [decode_deeplabv3p, getD_of_all_eq_zero h0, class_colors]
    · intro i j
      simp [get_multiplier, getD_of_all_eq_zero h0, class_binary]
  · intro h1 hlen
    constructor
    · intro i j hi hj
      have hk : i * nn_shape + j < t.length := by
        rw [hlen]
        exact flat_index_lt hi hj
      simp [decode_deeplabv3p, getD_of_all_eq_one h1 _ hk, class_colors]
    · intro i j hi hj
      have hk : i * nn_shape + j < t.length := by
        rw [hlen]
        exact flat_index_lt hi hj
      simp [get_multiplier, getD_of_all_eq_one h1 _ hk, class_binary]

/-- Witness for `decoder_uniform_tensors` at shape 1 tensors. -/
theorem decoder_uniform_tensors_witness :
    (decode_deeplabv3p 1 [0]).pix 0 0 = (0, 0, 0) ∧
    (get_multiplier 1 [0]).pix 0 0 = 0 ∧
    (decode_deeplabv3p 1 [1]).pix 0 0 = (0, 255, 0) ∧
    (get_multiplier 1 [1]).pix 0 0 = 1 :=
  ⟨((decoder_uniform_tensors 1 [0]).1 (by decide)).1 0 0,
   ((decoder_uniform_tensors 1 [0]).1 (by decide)).2 0 0,
   ((decoder_uniform_tensors 1 [1]).2.1 (by decide) rfl).1 0 0
     (by decide) (by decide),
   ((decoder_uniform_tensors 1 [1]).2.1 (by decide) rfl).2 0 0
     (by decide) (by decide)⟩

/-- C7: at any pixel, when the resized binary mask is 1 the cutout pixel
is the colormap of the scaled disparity value (which is below 256, being
uint8), and when the mask is 0 it is the colormap of 0, which is black
because `jet_custom` forces palette index 0 to (0, 0, 0). -/
theorem cutout_masking (disp mask : Frame Nat) (base : List RGB) (x y : Nat) :
    (mask.pix x y = 1 → disp.pix x y < 256 →
      (applyColorMap (frameMul disp mask) (jet_custom base)).pix x y =
        (applyColorMap disp (jet_custom base)).pix x y) ∧
    (mask.pix x y = 0 →
      (applyColorMap (frameMul disp mask) (jet_custom base)).pix x y =
        (jet_custom base).getD 0 (0, 0, 0) ∧
      (jet_custom base).getD 0 (0, 0, 0) = (0, 0, 0)) := by
  constructor
  · intro h1 h2
    simp [applyColorMap, frameMul, h1, Nat.mod_eq_of_lt h2]
  · intro h0
    constructor
    · simp [applyColorMap, frameMul, h0]
    · cases base <;> simp [jet_custom]

/-- Witness for `cutout_masking` at concrete one-pixel frames. -/
theorem cutout_masking_witness :
    (applyColorMap
        (frameMul (Frame.mk 1 1 fun _ _ => 7) (Frame.mk 1 1 fun _ _ => 1))
        (jet_custom [(9, 9, 9), (1, 2, 3)])).pix 0 0 =
      (applyColorMap (Frame.mk 1 1 fun _ _ => 7)
        (jet_custom [(9, 9, 9), (1, 2, 3)])).pix 0 0 ∧
    (applyColorMap
        (frameMul (Frame.mk 1 1 fun _ _ => 7) (Frame.mk 1 1 fun _ _ => 0))
        (jet_custom [(9, 9, 9), (1, 2, 3)])).pix 0 0 =
      (jet_custom [(9, 9, 9), (1, 2, 3)]).getD 0 (0, 0, 0) :=
  ⟨(cutout_masking (Frame.mk 1 1 fun _ _ => 7) (Frame.mk 1 1 fun _ _ => 1)
      [(9, 9, 9), (1, 2, 3)] 0 0).1 rfl (by norm_num),
   ((cutout_masking (Frame.mk 1 1 fun _ _ => 7) (Frame.mk 1 1 fun _ _ => 0)
      [(9, 9, 9), (1, 2, 3)] 0 0).2 rfl).1⟩

/-! Characterizations of the two outcomes of `add_msg`, and key lemmas of
the association-list model of the buffer dict. -/

theorem add_msg_eq_of_synced {s : HostSync} {name : String} {msg : Msg}
    {synced : List (String × Msg)}
    (h : (s.add_msg name msg).2 = some synced) :
    synced = findSynced msg.ts (appendMsg s.arrays name msg) ∧
    (s.add_msg name msg).1 =
      ⟨pruneAll msg.ts (appendMsg s.arrays name msg)⟩ := by
  by_cases hc : (findSynced msg.ts (appendMsg s.arrays name msg)).length = 3
  · constructor
    · have h2 := h
      simp [HostSync.add_msg, hc] at h2
      exact h2.symm
    · simp [HostSync.add_msg, hc]
  · simp [HostSync.add_msg, hc] at h

theorem add_msg_eq_of_none {s : HostSync} {name : String} {msg : Msg}
    (h : (s.add_msg name msg).2 = none) :
    (s.add_msg name msg).1 = ⟨appendMsg s.arrays name msg⟩ := by
  by_cases hc : (findSynced msg.ts (appendMsg s.arrays name msg)).length = 3
  · simp [HostSync.add_msg, hc] at h
  · simp [HostSync.add_msg, hc]

theorem mem_keys_appendMsg (arrays : List (String × List Msg))
    (name k : String) (msg : Msg) :
    k ∈ (appendMsg arrays name msg).map Prod.fst ↔
      k ∈ arrays.map Prod.fst ∨ k = name := by
  induction arrays with
  | nil => simp [appendMsg]
  | cons p rest ih =>
    rcases p with ⟨k0, arr⟩
    by_cases h : k0 = name
    · subst h
      simp [appendMsg]
      tauto
    · simp [appendMsg, h, ih]
      tauto

theorem nodup_keys_appendMsg (arrays : List (String × List Msg))
    (name : String) (msg : Msg) (h : (arrays.map Prod.fst).Nodup) :
    ((appendMsg arrays name msg).map Prod.fst).Nodup := by
  induction arrays with
  | nil => simp [appendMsg]
  | cons p rest ih =>
    rcases p with ⟨k0, arr⟩
    simp only [List.map_cons, List.nodup_cons] at h
    by_cases hk : k0 = name
    · simp only [appendMsg, hk, if_pos, List.map_cons, List.nodup_cons]
      exact ⟨by simpa [hk] using h.1, h.2⟩
    · simp only [appendMsg, hk, ite_false, List.map_cons, List.nodup_cons]
      refine ⟨?_, ih h.2⟩
      rw [mem_keys_appendMsg]
      rintro (hmem | heq)
      · exact h.1 hmem
      · exact hk heq

theorem lookup_eq_some_of_mem {arrays : List (String × List Msg)}
    {k : String} {arr : List Msg} (hnd : (arrays.map Prod.fst).Nodup)
    (hmem : (k, arr) ∈ arrays) : arrays.lookup k = some arr := by
  induction arrays with
  | nil => simp at hmem
  | cons p rest ih =>
    rcases p with ⟨k0, v0⟩
    simp only [List.map_cons, List.nodup_cons] at hnd
    rcases List.mem_cons.mp hmem with heq | hmem2
    · injection heq with h1 h2
      subst h1
      subst h2
      simp [List.lookup]
    · have hk : k ≠ k0 := by
        intro hc
        subst hc
        exact hnd.1 (List.mem_map_of_mem Prod.fst hmem2)
      have h' : (k == k0) = false := by simp [beq_iff_eq, hk]
      simp [List.lookup, h', ih hnd.2 hmem2]

/-- C10: when `add_msg` returns no match, the only state change is that
the new message is appended at the end of its named buffer; every other
buffer is unchanged (no entry removed or reordered, pruning runs only on
a successful synchronization). -/
theorem add_msg_no_match_append_only (s : HostSync) (name : String)
    (msg : Msg) (h : (s.add_msg name msg).2 = none) :
    (s.add_msg name msg).1 = ⟨appendMsg s.arrays name msg⟩ ∧
    bufOf (s.add_msg name msg).1 name = bufOf s name ++ [msg] ∧
    ∀ n, n ≠ name → bufOf (s.add_msg name msg).1 n = bufOf s n := by
  have he := add_msg_eq_of_none h
  refine ⟨he, ?_, ?_⟩
  · rw [he]
    unfold bufOf
    rw [lookup_appendMsg_self]
    rfl
  · intro n hn
    rw [he]
    unfold bufOf
    rw [lookup_appendMsg_other _ _ _ _ hn]

/-- Witness for `add_msg_no_match_append_only` at the first insertion
into an empty synchronizer. -/
theorem add_msg_no_match_append_only_witness :
    bufOf ((HostSync.mk []).add_msg "color" cMsg1).1 "color" =
      bufOf (HostSync.mk []) "color" ++ [cMsg1] ∧
    bufOf ((HostSync.mk []).add_msg "color" cMsg1).1 "depth" =
      bufOf (HostSync.mk []) "depth" :=
  ⟨(add_msg_no_match_append_only (HostSync.mk []) "color" cMsg1
      (by decide)).2.1,
   (add_msg_no_match_append_only (HostSync.mk []) "color" cMsg1
      (by decide)).2.2 "depth" (by decide)⟩

/-- C3: a message buffered at the moment a synchronization succeeds whose
timestamp is within 500 ms of the reference timestamp of that
synchronization is never removed by the pruning step. -/
theorem add_msg_no_premature_pruning (s : HostSync) (name : String)
    (msg : Msg) (synced : List (String × Msg))
    (h : (s.add_msg name msg).2 = some synced) (n : String) (m : Msg)
    (hm : m ∈ bufOf ⟨appendMsg s.arrays name msg⟩ n)
    (hts : |m.ts - msg.ts| ≤ timedeltaMs 500) :
    m ∈ bufOf (s.add_msg name msg).1 n := by
  rcases add_msg_eq_of_synced h with ⟨_, hstate⟩
  rw [hstate]
  unfold bufOf at hm ⊢
  rw [lookup_pruneAll]
  rcases hl : (appendMsg s.arrays name msg).lookup n with _ | arr
  · rw [hl] at hm
    simp at hm
  · rw [hl] at hm
    simp only [Option.getD_some] at hm
    simp only [hl, Option.map_some', Option.getD_some]
    refine pruneBuf_keeps_fresh ?_ hm
    intro hcon
    unfold removeCond at hcon
    unfold timedeltaMs at hts hcon
    linarith

/-- Witness for `add_msg_no_premature_pruning`: the color message of
`tripleScenario` (2 ms from the reference timestamp) survives the
pruning of the successful third call. -/
theorem add_msg_no_premature_pruning_witness :
    colorA ∈ bufOf
      ((((HostSync.mk []).add_msg "color" colorA).1.add_msg
          "depth" depthA).1.add_msg "nn" nnA).1 "color" :=
  add_msg_no_premature_pruning
    (((HostSync.mk []).add_msg "color" colorA).1.add_msg "depth" depthA).1
    "nn" nnA [("color", colorA), ("depth", depthA), ("nn", nnA)]
    (by decide) "color" colorA (by decide) (by decide)

/-- C9 amended: on success the selected messages are not consumed out of
the synchronizer: each entry of the returned triple is still present in
its stream buffer after the call (being within 33 ms of the reference
timestamp it is far inside the 500 ms pruning window), so the same
message can be selected again by a later synchronization. -/
theorem synced_msgs_retained (s : HostSync) (name : String) (msg : Msg)
    (hkeys : (s.arrays.map Prod.fst).Nodup)
    (synced : List (String × Msg))
    (h : (s.add_msg name msg).2 = some synced) :
    ∀ p ∈ synced, p.2 ∈ bufOf (s.add_msg name msg).1 p.1 := by
  intro p hp
  rcases add_msg_eq_of_synced h with ⟨hs, hstate⟩
  subst hs
  rcases findSynced_sound hp with ⟨arr, harr, hmem, hts⟩
  have hnd : ((appendMsg s.arrays name msg).map Prod.fst).Nodup :=
    nodup_keys_appendMsg _ _ _ hkeys
  have hl : (appendMsg s.arrays name msg).lookup p.1 = some arr :=
    lookup_eq_some_of_mem hnd harr
  rw [hstate]
  unfold bufOf
  rw [lookup_pruneAll, hl]
  simp only [Option.map_some', Option.getD_some]
  exact pruneBuf_keeps_fresh (not_removeCond_of_tol hts) hmem

/-- Witness for `synced_msgs_retained`: the depth entry of the triple of
`tripleScenario` is still buffered after the successful call. -/
theorem synced_msgs_retained_witness :
    depthA ∈ bufOf
      ((((HostSync.mk []).add_msg "color" colorA).1.add_msg
          "depth" depthA).1.add_msg "nn" nnA).1 "depth" :=
  synced_msgs_retained
    (((HostSync.mk []).add_msg "color" colorA).1.add_msg "depth" depthA).1
    "nn" nnA (by decide) [("color", colorA), ("depth", depthA), ("nn", nnA)]
    (by decide) ("depth", depthA) (by decide)

/-- C1: three messages for three pairwise-distinct stream names with
pairwise timestamp differences strictly below 33 ms, inserted into an
empty synchronizer in any order, make the third `add_msg` call return a
synced triple with an entry for all three names; and whenever any
`add_msg` call returns a triple, every message in it is strictly within
33 ms of the just-inserted (triggering) message, so no returned message
ever differs from it by 33 ms or more. -/
theorem add_msg_tolerance_matching :
    (∀ (n1 n2 n3 : String) (m1 m2 m3 : Msg),
      n1 ≠ n2 → n1 ≠ n3 → n2 ≠ n3 →
      |m1.ts - m2.ts| < timedeltaMs 33 →
      |m1.ts - m3.ts| < timedeltaMs 33 →
      |m2.ts - m3.ts| < timedeltaMs 33 →
      ((((HostSync.mk []).add_msg n1 m1).1.add_msg n2 m2).1.add_msg
          n3 m3).2 =
        some [(n1, m1), (n2, m2), (n3, m3)]) ∧
    (∀ (s : HostSync) (name : String) (msg : Msg)
      (synced : List (String × Msg)),
      (s.add_msg name msg).2 = some synced →
      ∀ p ∈ synced, |p.2.ts - msg.ts| < timedeltaMs 33) := by
  constructor
  · intro n1 n2 n3 m1 m2 m3 h12 h13 h23 a12 a13 a23
    have e1 : (HostSync.mk []).add_msg n1 m1 = (⟨[(n1, [m1])]⟩, none) := by
      simp [HostSync.add_msg, appendMsg, findSynced, findFirstMatch,
        sub_self, abs_zero, td33_pos]
    rw [e1]
    have e2 : (HostSync.mk [(n1, [m1])]).add_msg n2 m2 =
        (⟨[(n1, [m1]), (n2, [m2])]⟩, none) := by
      simp [HostSync.add_msg, appendMsg, h12, findSynced, findFirstMatch,
        a12, sub_self, abs_zero, td33_pos]
    rw [e2]
    simp [HostSync.add_msg, appendMsg, h12, h13, h23, findSynced,
      findFirstMatch, a13, a23, sub_self, abs_zero, td33_pos]
  · intro s name msg synced h p hp
    rcases add_msg_eq_of_synced h with ⟨hs, _⟩
    subst hs
    rcases findSynced_sound hp with ⟨arr, _, _, hts⟩
    exact hts

/-- Witness for `add_msg_tolerance_matching`: the concrete insertion
order color, depth, nn at 0, 1, 2 ms, and the tolerance bound for the
color entry of the returned triple. -/
theorem add_msg_tolerance_matching_witness :
    ((((HostSync.mk []).add_msg "color" colorA).1.add_msg
        "depth" depthA).1.add_msg "nn" nnA).2 =
      some [("color", colorA), ("depth", depthA), ("nn", nnA)] ∧
    |colorA.ts - nnA.ts| < timedeltaMs 33 :=
  ⟨add_msg_tolerance_matching.1 "color" "depth" "nn" colorA depthA nnA
      (by decide) (by decide) (by decide) (by decide) (by decide)
      (by decide),
   add_msg_tolerance_matching.2
      (((HostSync.mk []).add_msg "color" colorA).1.add_msg
        "depth" depthA).1
      "nn" nnA [("color", colorA), ("depth", depthA), ("nn", nnA)]
      (add_msg_tolerance_matching.1 "color" "depth" "nn" colorA depthA nnA
        (by decide) (by decide) (by decide) (by decide) (by decide)
        (by decide))
      ("color", colorA) (by decide)⟩

/-- C4 amended: in one loop iteration, each queue that reports data has
its head popped and ingested via `add_msg` unless an earlier `add_msg`
call of the same iteration already returned a synced triple — then
`msgs or add_msg(...)` short-circuits and the remaining queues and the
synchronizer are left untouched for that iteration (their messages stay
queued for a later iteration); an empty queue contributes nothing. The
eleven conjuncts partition every combination of empty queues and of the
point at which a triple is produced, so every iteration is covered. -/
theorem loop_ingestion_order (s : HostSync) :
    (loopIter s [] [] [] = ⟨s, none, [], [], []⟩) ∧
    (∀ (mn : Msg) (restn : List Msg),
      loopIter s [] [] (mn :: restn) =
        ⟨(s.add_msg "nn" mn).1, (s.add_msg "nn" mn).2, [], [], restn⟩) ∧
    (∀ (md : Msg) (restd qn : List Msg) (t : List (String × Msg)),
      (s.add_msg "depth" md).2 = some t →
      loopIter s [] (md :: restd) qn =
        ⟨(s.add_msg "depth" md).1, some t, [], restd, qn⟩) ∧
    (∀ (md : Msg) (restd : List Msg),
      (s.add_msg "depth" md).2 = none →
      loopIter s [] (md :: restd) [] =
        ⟨(s.add_msg "depth" md).1, none, [], restd, []⟩) ∧
    (∀ (md mn : Msg) (restd restn : List Msg),
      (s.add_msg "depth" md).2 = none →
      loopIter s [] (md :: restd) (mn :: restn) =
        ⟨((s.add_msg "depth" md).1.add_msg "nn" mn).1,
          ((s.add_msg "depth" md).1.add_msg "nn" mn).2, [], restd,
          restn⟩) ∧
    (∀ (mc : Msg) (rest qd qn : List Msg) (t : List (String × Msg)),
      (s.add_msg "color" mc).2 = some t →
      loopIter s (mc :: rest) qd qn =
        ⟨(s.add_msg "color" mc).1, some t, rest, qd, qn⟩) ∧
    (∀ (mc : Msg) (rest : List Msg),
      (s.add_msg "color" mc).2 = none →
      loopIter s (mc :: rest) [] [] =
        ⟨(s.add_msg "color" mc).1, none, rest, [], []⟩) ∧
    (∀ (mc mn : Msg) (rest restn : List Msg),
      (s.add_msg "color" mc).2 = none →
      loopIter s (mc :: rest) [] (mn :: restn) =
        ⟨((s.add_msg "color" mc).1.add_msg "nn" mn).1,
          ((s.add_msg "color" mc).1.add_msg "nn" mn).2, rest, [],
          restn⟩) ∧
    (∀ (mc md : Msg) (rest restd qn : List Msg) (t : List (String × Msg)),
      (s.add_msg "color" mc).2 = none →
      ((s.add_msg "color" mc).1.add_msg "depth" md).2 = some t →
      loopIter s (mc :: rest) (md :: restd) qn =
        ⟨((s.add_msg "color" mc).1.add_msg "depth" md).1, some t, rest,
          restd, qn⟩) ∧
    (∀ (mc md : Msg) (rest restd : List Msg),
      (s.add_msg "color" mc).2 = none →
      ((s.add_msg "color" mc).1.add_msg "depth" md).2 = none →
      loopIter s (mc :: rest) (md :: restd) [] =
        ⟨((s.add_msg "color" mc).1.add_msg "depth" md).1, none, rest,
          restd, []⟩) ∧
    (∀ (mc md mn : Msg) (rest restd restn : List Msg),
      (s.add_msg "color" mc).2 = none →
      ((s.add_msg "color" mc).1.add_msg "depth" md).2 = none →
      loopIter s (mc :: rest) (md :: restd) (mn :: restn) =
        ⟨(((s.add_msg "color" mc).1.add_msg "depth" md).1.add_msg
            "nn" mn).1,
          (((s.add_msg "color" mc).1.add_msg "depth" md).1.add_msg
            "nn" mn).2,
          rest, restd, restn⟩) := by
  refine ⟨?_, ?_, ?_, ?_, ?_, ?_, ?_, ?_, ?_, ?_, ?_⟩
  · simp [loopIter, pollOne]
  · intro mn restn
    simp [loopIter, pollOne]
  · intro md restd qn t h
    cases qn <;> simp [loopIter, pollOne, h]
  · intro md restd h
    simp [loopIter, pollOne, h]
  · intro md mn restd restn h
    simp [loopIter, pollOne, h]
  · intro mc rest qd qn t h
    cases qd <;> cases qn <;> simp [loopIter, pollOne, h]
  · intro mc rest h
    simp [loopIter, pollOne, h]
  · intro mc mn rest restn h
    simp [loopIter, pollOne, h]
  · intro mc md rest restd qn t h1 h2
    cases qn <;> simp [loopIter, pollOne, h1, h2]
  · intro mc md rest restd h1 h2
    simp [loopIter, pollOne, h1, h2]
  · intro mc md mn rest restd restn h1 h2
    simp [loopIter, pollOne, h1, h2]

/-- Witness for `loop_ingestion_order`: one concrete instance per
hypothesis-bearing conjunct — triples produced at the depth position
with the color queue empty (nn skipped), at the color position (depth
skipped), and at the depth position after a color ingestion, plus the
no-triple ingestion cases around empty queues. -/
theorem loop_ingestion_order_witness :
    loopIter (((HostSync.mk []).add_msg "color" colorA).1.add_msg
        "nn" nnA).1 [] [depthA] [nMsg1] =
      ⟨((((HostSync.mk []).add_msg "color" colorA).1.add_msg
          "nn" nnA).1.add_msg "depth" depthA).1,
        some [("color", colorA), ("nn", nnA), ("depth", depthA)],
        [], [], [nMsg1]⟩ ∧
    loopIter (HostSync.mk []) [] [dMsg1] [] =
      ⟨((HostSync.mk []).add_msg "depth" dMsg1).1, none, [], [], []⟩ ∧
    loopIter (HostSync.mk []) [] [dMsg1] [nMsg1] =
      ⟨(((HostSync.mk []).add_msg "depth" dMsg1).1.add_msg
          "nn" nMsg1).1,
        (((HostSync.mk []).add_msg "depth" dMsg1).1.add_msg
          "nn" nMsg1).2, [], [], []⟩ ∧
    loopIter (((HostSync.mk []).add_msg "depth" dMsg0).1.add_msg
        "nn" nMsg0).1 [cMsg0] [dMsgLate] [] =
      ⟨((((HostSync.mk []).add_msg "depth" dMsg0).1.add_msg
          "nn" nMsg0).1.add_msg "color" cMsg0).1,
        some [("depth", dMsg0), ("nn", nMsg0), ("color", cMsg0)],
        [], [dMsgLate], []⟩ ∧
    loopIter (HostSync.mk []) [cMsg1] [] [] =
      ⟨((HostSync.mk []).add_msg "color" cMsg1).1, none, [], [], []⟩ ∧
    loopIter (HostSync.mk []) [cMsg1] [] [nMsg1] =
      ⟨(((HostSync.mk []).add_msg "color" cMsg1).1.add_msg
          "nn" nMsg1).1,
        (((HostSync.mk []).add_msg "color" cMsg1).1.add_msg
          "nn" nMsg1).2, [], [], []⟩ ∧
    loopIter ((HostSync.mk []).add_msg "nn" nnA).1 [colorA] [depthA]
        [nMsg1] =
      ⟨((((HostSync.mk []).add_msg "nn" nnA).1.add_msg
          "color" colorA).1.add_msg "depth" depthA).1,
        some [("nn", nnA), ("color", colorA), ("depth", depthA)],
        [], [], [nMsg1]⟩ ∧
    loopIter (HostSync.mk []) [cMsg1] [dMsg1] [] =
      ⟨(((HostSync.mk []).add_msg "color" cMsg1).1.add_msg
          "depth" dMsg1).1, none, [], [], []⟩ ∧
    loopIter (HostSync.mk []) [cMsg1] [dMsg1] [nMsg1] =
      ⟨((((HostSync.mk []).add_msg "color" cMsg1).1.add_msg
          "depth" dMsg1).1.add_msg "nn" nMsg1).1,
        ((((HostSync.mk []).add_msg "color" cMsg1).1.add_msg
          "depth" dMsg1).1.add_msg "nn" nMsg1).2,
        [], [], []⟩ :=
  ⟨(loop_ingestion_order (((HostSync.mk []).add_msg "color" colorA).1.add_msg
      "nn" nnA).1).2.2.1 depthA [] [nMsg1]
      [("color", colorA), ("nn", nnA), ("depth", depthA)] (by decide),
   (loop_ingestion_order (HostSync.mk [])).2.2.2.1 dMsg1 [] (by decide),
   (loop_ingestion_order (HostSync.mk [])).2.2.2.2.1 dMsg1 nMsg1 [] []
      (by decide),
   (loop_ingestion_order (((HostSync.mk []).add_msg "depth" dMsg0).1.add_msg
      "nn" nMsg0).1).2.2.2.2.2.1 cMsg0 [] [dMsgLate] []
      [("depth", dMsg0), ("nn", nMsg0), ("color", cMsg0)] (by decide),
   (loop_ingestion_order (HostSync.mk [])).2.2.2.2.2.2.1 cMsg1 []
      (by decide),
   (loop_ingestion_order (HostSync.mk [])).2.2.2.2.2.2.2.1 cMsg1 nMsg1 [] []
      (by decide),
   (loop_ingestion_order ((HostSync.mk []).add_msg
      "nn" nnA).1).2.2.2.2.2.2.2.2.1 colorA depthA [] [] [nMsg1]
      [("nn", nnA), ("color", colorA), ("depth", depthA)] (by decide)
      (by decide),
   (loop_ingestion_order (HostSync.mk [])).2.2.2.2.2.2.2.2.2.1 cMsg1 dMsg1
      [] [] (by decide) (by decide),
   (loop_ingestion_order (HostSync.mk [])).2.2.2.2.2.2.2.2.2.2 cMsg1 dMsg1
      nMsg1 [] [] [] (by decide) (by decide)⟩
